import Mathlib

/-!
# Verification of the apify-client HTTP execution layer

Shallow embedding of the client-side request execution engine
(`HttpClient` in the source: option validation/normalization, the
per-attempt request logic `makeRequest`, status-code driven retry
classification, rate-limit accounting, and the retry loop), together
with theorems settling the specification claims.

Conventions of the embedding:
* Dynamically typed option fields that the code inspects with `typeof`
  are modelled by the inductive `JsVal`.
* The transport (axios) and the platform JSON parser are environment
  inputs: each attempt consumes a `Transport` value describing what the
  exchange produced, including whether a non-empty body would parse as
  JSON (`JsonParse`).
* JS `toUpperCase` is modelled by `String.toUpper` (ASCII case folding;
  the allowed-method comparisons only involve ASCII strings).
* Counters live in `CallStats`; the JS sparse array `rateLimitErrors`
  is a `List (Option Nat)` where `none` models a hole / non-number slot.
-/

deriving instance DecidableEq for Except

namespace ApifyHttp

/-- `RATE_LIMIT_EXCEEDED_STATUS_CODE = 429` from the source. -/
def RATE_LIMIT_EXCEEDED_STATUS_CODE : Nat := 429

/-- `EXP_BACKOFF_MILLIS = 500` from the source. -/
def EXP_BACKOFF_MILLIS : Nat := 500

/-- `EXP_BACKOFF_MAX_REPEATS = 8` from the source. -/
def EXP_BACKOFF_MAX_REPEATS : Nat := 8

/-- `ALLOWED_HTTP_METHODS` from the source. -/
def ALLOWED_HTTP_METHODS : List String :=
  [("GET"), ("DELETE"), ("HEAD"), ("POST"), ("PUT"), ("PATCH")]

/-- JS `toUpperCase`, per character (ASCII case folding), defined over
the character list so that it reduces in the kernel. -/
def jsToUpper (s : String) : String := ⟨s.data.map Char.toUpper⟩

/-- JS `s.substr(-1) === '/'`: the last character is a forward slash
(false on the empty string). -/
def jsLastIsSlash (s : String) : Bool :=
  match s.data.getLast? with
  | some c => c = ('/')
  | none => false

/-- JS `s.slice(0, -1)`: drop the last character. -/
def jsDropLast (s : String) : String := ⟨s.data.dropLast⟩

/-- A dynamically typed JavaScript value, as far as the option checks
(`typeof x !== 'string'`, truthiness) need to distinguish. -/
inductive JsVal where
  | undef
  | nullV
  | boolV (b : Bool)
  | numV (n : Int)
  | strV (s : String)
  deriving DecidableEq, Repr

/-- `typeof v === 'string'`. -/
def JsVal.isString : JsVal → Bool
  | .strV _ => true
  | _ => false

/-- The four error classification constants imported from
`./apify_error` (`INVALID_PARAMETER_ERROR_TYPE_V1/V2`,
`REQUEST_FAILED_ERROR_TYPE_V1/V2`), plus `fromBody` for a type string
taken verbatim from a response body's nested error object. -/
inductive ErrorType where
  | invalidParameterV1
  | invalidParameterV2
  | requestFailedV1
  | requestFailedV2
  | fromBody (s : String)
  deriving DecidableEq, Repr

/-- A low-level JavaScript exception caught inside `makeRequest`'s try
block: a transport (network) failure from axios, a `TypeError` from
touching a missing response object, or a `SyntaxError` from
`JSON.parse`. Each carries its `message`. -/
inductive JsError where
  | net (message : String)
  | typeErr (message : String)
  | parse (message : String)
  deriving DecidableEq, Repr

/-- The `message` property of a caught error. -/
def JsError.message : JsError → String
  | .net m => m
  | .typeErr m => m
  | .parse m => m

/-- The `error` field of the retry diagnostics object:
`error && error.message ? error.message : error` — absent when no
exception was caught, the message string when it is truthy, the error
value itself otherwise. -/
inductive DetailsError where
  | noError
  | msg (s : String)
  | errVal (e : JsError)
  deriving DecidableEq, Repr

/-- `error && error.message ? error.message : error` on an optional
caught exception. -/
def detailsErrorOf : Option JsError → DetailsError
  | none => .noError
  | some e => if e.message = ("") then .errVal e else .msg e.message

/-- Detail payload of the terminal error thrown for a 3xx/4xx status
outside the retryable set: `{ statusCode, url, method }`. -/
structure TerminalDetails where
  statusCode : Option Nat
  url : String
  method : String
  deriving DecidableEq, Repr

/-- Detail payload of the retryable request-failed error
(`errorDetails` in the source). -/
structure RetryDetails where
  url : String
  method : String
  params : Option String
  hasBody : Bool
  errorValue : DetailsError
  statusCode : Option Nat
  iteration : Nat
  deriving DecidableEq, Repr

/-- The two shapes of the `details` field of an `ApifyClientError`. -/
inductive ErrorDetails where
  | terminal (d : TerminalDetails)
  | retry (d : RetryDetails)
  deriving DecidableEq, Repr

/-- The structured error type of the client (`ApifyClientError`):
classification tag, message, optional details, optional wrapped cause. -/
structure ApifyClientError where
  type : ErrorType
  message : String
  details : Option ErrorDetails
  cause : Option JsError
  deriving DecidableEq, Repr

/-- The merged option bag handed to `_validateAndNormalizeOptions` and
then to `_call`. Fields that only feed the wire-level axios request
construction (headers, query string, base path, encoding) are omitted:
no modelled operation reads them. `hasBody` stands for the truthiness
of `options.body`, which is all the engine itself inspects. -/
structure RawOptions where
  isApiV1 : Bool
  baseUrl : JsVal
  url : String
  method : JsVal
  authRequired : Bool
  token : JsVal
  expBackoffMillis : Option Nat
  expBackoffMaxRepeats : Option Nat
  retryOnStatusCodes : Option (List Nat)
  json : Bool
  resolveWithFullResponse : Bool
  hasBody : Bool
  params : Option String
  deriving DecidableEq, Repr

/-- The method as a string; after normalization the field is always a
string, and the engine only runs on normalized options. -/
def RawOptions.methodStr (o : RawOptions) : String :=
  match o.method with
  | .strV s => s
  | _ => ("")

/-- `retryOnStatusCodes` as read by `_call`; normalization always fills
the field, the default mirrors the destructuring default of the source. -/
def retrySetOf (o : RawOptions) : List Nat :=
  o.retryOnStatusCodes.getD [RATE_LIMIT_EXCEEDED_STATUS_CODE]

/-- A JSON value, as far as the error constructor needs to look at it:
either an object carrying a nested `error` object with `type` and
`message` fields, or anything else (carrying its serialization). -/
inductive JsonVal where
  | errObj (type : String) (message : String)
  | other (serialization : String)
  deriving DecidableEq, Repr

/-- Outcome of running the platform `JSON.parse` on a non-empty body:
supplied by the environment as part of the transport outcome. -/
inductive JsonParse where
  | ok (v : JsonVal)
  | err (message : String)
  deriving DecidableEq, Repr

/-- The raw response body as delivered by the transport: falsy
(empty/absent) or non-empty text together with its `JSON.parse`
behaviour. -/
inductive RawRespBody where
  | empty
  | text (s : String) (parsed : JsonParse)
  deriving DecidableEq, Repr

/-- What `response.body` holds at a given moment: the raw falsy value,
raw text, or a parsed JSON value. -/
inductive FinalBody where
  | rawEmpty
  | raw (s : String)
  | parsed (v : JsonVal)
  deriving DecidableEq, Repr

/-- The success value of a call: the body, or the full response
(status and body) when `resolveWithFullResponse` is set. -/
inductive Payload where
  | body (b : FinalBody)
  | fullResponse (statusCode : Option Nat) (b : FinalBody)
  deriving DecidableEq, Repr

/-- What one `axios.request` invocation produced, as seen by the try
block: a rejected promise (network error), a resolved exchange whose
`request.res` object is missing, or a response with an optional status
code (`none` models an undefined/null `statusCode`) and a body. -/
inductive Transport where
  | netError (message : String)
  | noRes
  | res (statusCode : Option Nat) (body : RawRespBody)
  deriving DecidableEq, Repr

/-- Result of the try block of `makeRequest`: an early `return`
(success), or falling to the code after the catch with the status code
in scope, the current `response.body` (absent when no response object
exists) and an optionally caught exception. -/
inductive TryOutcome where
  | returned (p : Payload)
  | fell (statusCode : Option Nat) (respBody : Option FinalBody) (err : Option JsError)
  deriving DecidableEq, Repr

/-- Classification of one attempt: resolve, throw the terminal error,
or throw a `RetryableError` wrapping the given structured error. -/
inductive AttemptResult where
  | success (p : Payload)
  | terminalError (e : ApifyClientError)
  | retryableError (e : ApifyClientError)
  deriving DecidableEq, Repr

/-- Result of a whole call. -/
inductive CallResult where
  | success (p : Payload)
  | failure (e : ApifyClientError)
  deriving DecidableEq, Repr

/-- The shared mutable statistics object. `rateLimitErrors` models the
JS array indexed by `iteration - 1`; `none` entries are holes. -/
structure CallStats where
  calls : Nat
  requests : Nat
  rateLimitErrors : List (Option Nat)
  deriving DecidableEq, Repr

/-- The rate-limit counter observed at a 1-based attempt ordinal: the
source stores the counter for attempt `i` at array index `i - 1`. -/
def rateLimitAtOrdinal (s : CallStats) (ord : Nat) : Option Nat :=
  (s.rateLimitErrors.get? (ord - 1)).join

/-- Message of the invalid-baseUrl error. -/
def baseUrlRequiredMsg : String :=
  ("The \"options.baseUrl\" parameter of type string is required.")

/-- Message of the invalid-method-type error. -/
def methodRequiredMsg : String :=
  ("The \"options.method\" parameter of type string is required.")

/-- Message of the method-not-allowed error; interpolates the caller's
original (pre-uppercasing) method string. -/
def invalidMethodMsg (m : String) : String :=
  ("The \"options.method\" parameter is invalid. Expected one of ")
    ++ String.intercalate (", ") ALLOWED_HTTP_METHODS ++ (" but got: ") ++ m

/-- Message of the invalid-token error. -/
def tokenRequiredMsg : String :=
  ("The \"options.token\" parameter of type string is required.")

/-- The invalid-parameter tag selected by the `isApiV1` flag. -/
def invalidParamTag (isApiV1 : Bool) : ErrorType :=
  if isApiV1 then .invalidParameterV1 else .invalidParameterV2

/-- The request-failed tag selected by the `isApiV1` flag. -/
def requestFailedTag (isApiV1 : Bool) : ErrorType :=
  if isApiV1 then .requestFailedV1 else .requestFailedV2

/-- An invalid-parameter error as thrown by the normalizer (no details,
no cause). -/
def invalidParamError (tag : ErrorType) (msg : String) : ApifyClientError :=
  { type := tag, message := msg, details := none, cause := none }

/-- The normalized option bag returned on the success path: the spread
`{...options}` with the trailing-slash-stripped `baseUrl`, upper-cased
`method`, and the three retry tuning defaults filled. -/
def normalizedOf (o : RawOptions) (b0 m0 : String) : RawOptions :=
  { o with
    baseUrl := .strV (if jsLastIsSlash b0 then jsDropLast b0 else b0)
    method := .strV (jsToUpper m0)
    expBackoffMillis := some (o.expBackoffMillis.getD EXP_BACKOFF_MILLIS)
    expBackoffMaxRepeats := some (o.expBackoffMaxRepeats.getD EXP_BACKOFF_MAX_REPEATS)
    retryOnStatusCodes := some (o.retryOnStatusCodes.getD [RATE_LIMIT_EXCEEDED_STATUS_CODE]) }

/-- `_validateAndNormalizeOptions` from the source: checks `baseUrl` is
a string and strips a single trailing slash, checks `method` is a
string, upper-cases it and checks membership in
`ALLOWED_HTTP_METHODS` (note: that error is raised with the `V2` tag
unconditionally, as in the source, while the others use the
flag-selected tag), checks the token is a string when `authRequired` is
truthy, and fills the three retry tuning defaults. -/
def validateAndNormalizeOptions (o : RawOptions) : Except ApifyClientError RawOptions :=
  match o.baseUrl with
  | .strV b0 =>
    match o.method with
    | .strV m0 =>
      if ALLOWED_HTTP_METHODS.contains (jsToUpper m0) then
        if o.authRequired && !o.token.isString then
          .error (invalidParamError (invalidParamTag o.isApiV1) tokenRequiredMsg)
        else
          .ok (normalizedOf o b0 m0)
      else
        .error (invalidParamError .invalidParameterV2 (invalidMethodMsg m0))
    | _ => .error (invalidParamError (invalidParamTag o.isApiV1) methodRequiredMsg)
  | _ => .error (invalidParamError (invalidParamTag o.isApiV1) baseUrlRequiredMsg)

/-- `!statusCode || statusCode < 300`: the early-return condition of
the try block (an absent/zero status code counts as success). -/
def isSuccessStatus : Option Nat → Bool
  | none => true
  | some n => n < 300

/-- What `response.body` holds after the optional `JSON.parse` step:
parsed when content negotiation is on, the body is non-empty and
parses; otherwise the raw value (on a parse failure the assignment
threw, so the body stays raw). -/
def respBodyAfterParse (o : RawOptions) (b : RawRespBody) : FinalBody :=
  match b with
  | .empty => .rawEmpty
  | .text s p =>
    if o.json then
      match p with
      | .ok v => .parsed v
      | .err _ => .raw s
    else .raw s

/-- The resolved value on success: the body, or the full response when
`resolveWithFullResponse` is set. -/
def mkPayload (o : RawOptions) (st : Option Nat) (fb : FinalBody) : Payload :=
  if o.resolveWithFullResponse then .fullResponse st fb else .body fb

/-- The try block of `makeRequest`: perform the exchange, read the
status code (null when the response object is missing), attach the
body, optionally `JSON.parse` it (throwing on failure), and return
early on a falsy or sub-300 status. The `TypeError` message for a
missing response object is environment-specific; its text is never
inspected. -/
def tryBlock (o : RawOptions) (t : Transport) : TryOutcome :=
  match t with
  | .netError m => .fell none none (some (.net m))
  | .noRes => .fell none none (some (.typeErr ("Cannot set property of undefined")))
  | .res st b =>
    match b with
    | .text s (.err em) =>
      if o.json then .fell st (some (.raw s)) (some (.parse em))
      else
        if isSuccessStatus st then .returned (mkPayload o st (.raw s))
        else .fell st (some (.raw s)) none
    | _ =>
      let fb := respBodyAfterParse o b
      if isSuccessStatus st then .returned (mkPayload o st fb)
      else .fell st (some fb) none

/-- The status code in scope after the try block. -/
def fellStatus (o : RawOptions) (t : Transport) : Option Nat :=
  match tryBlock o t with
  | .returned _ => none
  | .fell st _ _ => st

/-- The caught exception in scope after the try block. -/
def fellError (o : RawOptions) (t : Transport) : Option JsError :=
  match tryBlock o t with
  | .returned _ => none
  | .fell _ _ e => e

/-- `statusCode >= 300 && statusCode < 500 &&
!retryOnStatusCodes.includes(statusCode)` — the immediate-rejection
condition (comparisons with an absent status are false). -/
def terminalStatus (o : RawOptions) (st : Option Nat) : Bool :=
  match st with
  | some n => (300 ≤ n) && (n < 500) && !((retrySetOf o).contains n)
  | none => false

/-- Modelled from the spec: `newApifyClientErrorFromResponse` is
imported from `./utils`, which is not among the sources. Per the spec's
Error Constructor contract: if the body contains a recognizable nested
error object with `type` and `message` fields, use them directly;
otherwise serialize the raw body into the message prefixed with
"Unexpected error:", with the classification tag selected by the
caller-supplied API-version flag; the request context details are
attached as given. -/
def newApifyClientErrorFromResponse (body : FinalBody) (isApiV1 : Bool)
    (details : TerminalDetails) : ApifyClientError :=
  match body with
  | .parsed (.errObj t m) =>
    { type := .fromBody t, message := m, details := some (.terminal details), cause := none }
  | .parsed (.other s) =>
    { type := requestFailedTag isApiV1, message := ("Unexpected error: ") ++ s
      details := some (.terminal details), cause := none }
  | .raw s =>
    { type := requestFailedTag isApiV1, message := ("Unexpected error: ") ++ s
      details := some (.terminal details), cause := none }
  | .rawEmpty =>
    { type := requestFailedTag isApiV1, message := ("Unexpected error: ")
      details := some (.terminal details), cause := none }

/-- The message of the exhaustion error: distinguishes the first try
from retry number `iteration - 1`. -/
def errMsgForIteration (iteration : Nat) : String :=
  if iteration = 1 then ("API request failed on the first try")
  else ("API request failed on retry number ") ++ toString (iteration - 1)

/-- The structured error wrapped in the `RetryableError` thrown at the
end of `makeRequest`. -/
def mkRetryError (o : RawOptions) (st : Option Nat) (err : Option JsError)
    (iteration : Nat) : ApifyClientError :=
  { type := requestFailedTag o.isApiV1
    message := errMsgForIteration iteration
    details := some (.retry
      { url := o.url, method := o.methodStr, params := o.params
        hasBody := o.hasBody, errorValue := detailsErrorOf err
        statusCode := st, iteration := iteration })
    cause := err }

/-- The control-flow outcome of one `makeRequest` invocation (stats
side effects are tracked separately by `statsAfterAttempt`; the
classification itself never reads the stats). -/
def classifyAttempt (o : RawOptions) (t : Transport) (iteration : Nat) : AttemptResult :=
  match tryBlock o t with
  | .returned p => .success p
  | .fell st rb err =>
    if terminalStatus o st then
      .terminalError (newApifyClientErrorFromResponse (rb.getD .rawEmpty) o.isApiV1
        { statusCode := st, url := o.url, method := o.methodStr })
    else
      .retryableError (mkRetryError o st err iteration)

/-- The three classifier verdicts. -/
inductive AttemptKind where
  | success
  | terminal
  | retryable
  deriving DecidableEq, Repr

/-- Verdict of an attempt result. -/
def kindOf : AttemptResult → AttemptKind
  | .success _ => .success
  | .terminalError _ => .terminal
  | .retryableError _ => .retryable

/-- The verdict of an attempt; it does not depend on the iteration
ordinal (only messages and diagnostics do). -/
def attemptKind (o : RawOptions) (t : Transport) : AttemptKind :=
  kindOf (classifyAttempt o t 1)

/-- `arr[i]` assignment with increment-or-create semantics on a JS
array with holes: `typeof arr[i] === 'number' ? arr[i]++ : arr[i] = 1`,
padding with holes up to index `i` when the array is shorter. -/
def bumpRateLimit : List (Option Nat) → Nat → List (Option Nat)
  | [], 0 => [some 1]
  | [], k + 1 => none :: bumpRateLimit [] k
  | x :: xs, 0 => (some (x.getD 0 + 1)) :: xs
  | x :: xs, k + 1 => x :: bumpRateLimit xs k

/-- Statistics after one `makeRequest` invocation: `requests` is
incremented unconditionally at the top of the try block, and the
rate-limit counter at index `iteration - 1` is bumped exactly when the
status code in scope equals 429 — before, and independently of, the
terminal/retryable decision. -/
def statsAfterAttempt (o : RawOptions) (t : Transport) (iteration : Nat)
    (s : CallStats) : CallStats :=
  let s1 := { s with requests := s.requests + 1 }
  match tryBlock o t with
  | .returned _ => s1
  | .fell st _ _ =>
    if st = some RATE_LIMIT_EXCEEDED_STATUS_CODE then
      { s1 with rateLimitErrors := bumpRateLimit s1.rateLimitErrors (iteration - 1) }
    else s1

/-- One `makeRequest` invocation: its control-flow result and the
statistics after it. -/
def makeRequest (o : RawOptions) (t : Transport) (iteration : Nat)
    (s : CallStats) : AttemptResult × CallStats :=
  (classifyAttempt o t iteration, statsAfterAttempt o t iteration s)

/-- Placeholder failure for a retry ceiling of zero; unreachable for
every positive ceiling (the normalizer default is 8). -/
def noAttemptsError : ApifyClientError :=
  { type := .requestFailedV2, message := ("API request failed")
    details := none, cause := none }

/-- Modelled from the spec: the loop driven by `retryWithExpBackoff`
(imported from `apify-shared/exponential_backoff`, not among the
sources). Per the spec's Backoff Scheduler contract: each iteration
runs `makeRequest` with the next 1-based ordinal; a success resolves; a
non-retryable (terminal) error fails the call at once; a
`RetryableError` is retried after a backoff delay until the attempt
count reaches the configured ceiling, at which point the call fails
with the wrapped structured error of the last attempt. Delays are
irrelevant to the modelled state and elided. -/
def retryLoop (o : RawOptions) (outcomes : Nat → Transport) :
    Nat → Nat → CallStats → CallResult × CallStats
  | 0, _, stats => (.failure noAttemptsError, stats)
  | fuel + 1, iteration, stats =>
    let s1 := statsAfterAttempt o (outcomes iteration) iteration stats
    match classifyAttempt o (outcomes iteration) iteration with
    | .success p => (.success p, s1)
    | .terminalError e => (.failure e, s1)
    | .retryableError e =>
      if fuel = 0 then (.failure e, s1)
      else retryLoop o outcomes fuel (iteration + 1) s1

/-- `_call` from the source: bump the calls counter, then run the
retry loop over normalized options starting at ordinal 1. -/
def internalCall (o : RawOptions) (outcomes : Nat → Transport)
    (stats : CallStats) : CallResult × CallStats :=
  let stats1 := { stats with calls := stats.calls + 1 }
  retryLoop o outcomes (o.expBackoffMaxRepeats.getD EXP_BACKOFF_MAX_REPEATS) 1 stats1

/-- `call` from the source: validate and normalize the merged options
(raising before any network activity on failure), then `_call`. -/
def call (o : RawOptions) (outcomes : Nat → Transport)
    (stats : CallStats) : CallResult × CallStats :=
  match validateAndNormalizeOptions o with
  | .error e => (.failure e, stats)
  | .ok n => internalCall n outcomes stats

/-- The caught-exception value of the try block for a delivered
response: a `SyntaxError` from `JSON.parse` exactly when content
negotiation is on and the non-empty body fails to parse. -/
def tryErrOf (o : RawOptions) (b : RawRespBody) : Option JsError :=
  match b with
  | .text _ (.err em) => if o.json then some (.parse em) else none
  | _ => none

/-- Content negotiation is on and the non-empty body fails to parse,
so the `JSON.parse` call inside the try block throws. -/
def jsonParseFails (o : RawOptions) (b : RawRespBody) : Bool :=
  match b with
  | .text _ (.err _) => o.json
  | _ => false

/-- The normalized descriptor's base URL still ends in a separator
(possible exactly when the input base URL ended in two or more). -/
def baseUrlEndsInSlash (o : RawOptions) : Bool :=
  match o.baseUrl with
  | .strV s => jsLastIsSlash s
  | _ => false

/-! ## Concrete fixtures used by witnesses and counterexamples -/

/-- A well-formed merged option bag. -/
def sampleOpts : RawOptions :=
  { isApiV1 := false, baseUrl := .strV ("http://example.com"), url := ("/acts")
    method := .strV ("get"), authRequired := false, token := .undef
    expBackoffMillis := none, expBackoffMaxRepeats := none, retryOnStatusCodes := none
    json := true, resolveWithFullResponse := false, hasBody := false, params := none }

/-- A fresh statistics object. -/
def freshStats : CallStats := { calls := 0, requests := 0, rateLimitErrors := [] }

/-- A transport environment answering every attempt with a bare 429
(rate-limited) response. -/
def const429 : Nat → Transport := fun _ => .res (some 429) .empty

/-! ## Helper lemmas -/

/-- A method string listed in `ALLOWED_HTTP_METHODS` is already upper
case, so upper-casing it again is the identity. -/
theorem jsToUpper_fixed_of_allowed {m : String}
    (h : ALLOWED_HTTP_METHODS.contains m = true) : jsToUpper m = m := by
  have hm : m ∈ ALLOWED_HTTP_METHODS := by
    simpa using h
  simp only [ALLOWED_HTTP_METHODS, List.mem_cons, List.not_mem_nil, or_false] at hm
  rcases hm with h1 | h1 | h1 | h1 | h1 | h1 <;> subst h1 <;> decide

/-- The `requests` counter is incremented exactly once per attempt. -/
theorem statsAfterAttempt_requests (o : RawOptions) (t : Transport)
    (i : Nat) (s : CallStats) :
    (statsAfterAttempt o t i s).requests = s.requests + 1 := by
  unfold statsAfterAttempt
  rcases h : tryBlock o t with p | ⟨st, rb, err⟩
  · rfl
  · dsimp only
    split <;> rfl

/-! ## Claims -/

/-- C9: for every call whose merged options fail validation, the
invalid-parameter error is raised before any network activity: the
call fails with exactly that error and the statistics object is
unchanged — neither the `calls` counter nor the `requests` (attempts)
counter is incremented. -/
theorem invalid_options_fail_before_network (o : RawOptions)
    (outcomes : Nat → Transport) (stats : CallStats) (e : ApifyClientError)
    (h : validateAndNormalizeOptions o = .error e) :
    call o outcomes stats = (.failure e, stats) := by
  simp [call, h]

theorem invalid_options_fail_before_network_witness :
    call { sampleOpts with authRequired := true }
        (fun _ => .res (some 200) .empty) freshStats
      = (.failure (invalidParamError .invalidParameterV2 tokenRequiredMsg),
         freshStats) :=
  invalid_options_fail_before_network _ _ _ _ (by decide)

/-- C5: a string method whose upper-casing lies outside
{GET, DELETE, HEAD, POST, PUT, PATCH} makes normalization fail with an
invalid-parameter error whose message names the allowed set; a string
method whose upper-casing lies in the set passes the method check and
is normalized to upper case (the call as a whole succeeds provided the
token check also passes). -/
theorem method_normalization (o : RawOptions) (b m : String)
    (hb : o.baseUrl = .strV b) (hm : o.method = .strV m) :
    (ALLOWED_HTTP_METHODS.contains (jsToUpper m) = false →
      validateAndNormalizeOptions o =
        .error (invalidParamError .invalidParameterV2 (invalidMethodMsg m)))
    ∧ (ALLOWED_HTTP_METHODS.contains (jsToUpper m) = true →
        (o.authRequired && !o.token.isString) = false →
        validateAndNormalizeOptions o = .ok (normalizedOf o b m)
          ∧ (normalizedOf o b m).method = .strV (jsToUpper m)) := by
  constructor
  · intro hc
    have hc' : jsToUpper m ∉ ALLOWED_HTTP_METHODS := by simpa using hc
    simp [validateAndNormalizeOptions, hb, hm, hc']
  · intro hc htok
    have hc' : jsToUpper m ∈ ALLOWED_HTTP_METHODS := by simpa using hc
    have hno : ¬(o.authRequired = true ∧ o.token.isString = false) := by
      rintro ⟨h1, h2⟩
      rw [h1, h2] at htok
      exact absurd htok (by decide)
    exact ⟨by simp [validateAndNormalizeOptions, hb, hm, hc', hno], rfl⟩

theorem method_normalization_witness :
    (validateAndNormalizeOptions { sampleOpts with method := .strV ("fetch") } =
        .error (invalidParamError .invalidParameterV2 (invalidMethodMsg ("fetch"))))
    ∧ (validateAndNormalizeOptions sampleOpts
          = .ok (normalizedOf sampleOpts ("http://example.com") ("get"))
        ∧ (normalizedOf sampleOpts ("http://example.com") ("get")).method
            = .strV (jsToUpper ("get"))) :=
  ⟨(method_normalization { sampleOpts with method := .strV ("fetch") }
      ("http://example.com") ("fetch") rfl rfl).1 (by decide),
   (method_normalization sampleOpts ("http://example.com") ("get") rfl rfl).2
      (by decide) (by decide)⟩

/-- Counterexample to C6 as stated: with the credential required and
the token equal to the empty string — which is not a non-empty
string — normalization nevertheless succeeds, because the source only
checks `typeof token !== 'string'`. -/
theorem empty_token_accepted :
    validateAndNormalizeOptions
        { sampleOpts with authRequired := true, token := .strV ("") }
      = .ok (normalizedOf
          { sampleOpts with authRequired := true, token := .strV ("") }
          ("http://example.com") ("get")) := by
  decide

/-- C6 amended: when the descriptor marks the credential as required,
normalization fails with the flag-selected invalid-parameter error
exactly when the token is not a string (missing or non-string); any
string token — including the empty string — passes the check. -/
theorem required_token_check (o : RawOptions) (b m : String)
    (hb : o.baseUrl = .strV b) (hm : o.method = .strV m)
    (hmeth : ALLOWED_HTTP_METHODS.contains (jsToUpper m) = true)
    (hreq : o.authRequired = true) :
    (o.token.isString = false →
      validateAndNormalizeOptions o =
        .error (invalidParamError (invalidParamTag o.isApiV1) tokenRequiredMsg))
    ∧ (o.token.isString = true →
      validateAndNormalizeOptions o = .ok (normalizedOf o b m)) := by
  have hc' : jsToUpper m ∈ ALLOWED_HTTP_METHODS := by simpa using hmeth
  constructor <;> intro ht <;>
    simp [validateAndNormalizeOptions, hb, hm, hc', hreq, ht]

theorem required_token_check_witness :
    (validateAndNormalizeOptions
        { sampleOpts with authRequired := true, token := .numV 5 }
      = .error (invalidParamError .invalidParameterV2 tokenRequiredMsg))
    ∧ (validateAndNormalizeOptions
        { sampleOpts with authRequired := true, token := .strV ("") }
      = .ok (normalizedOf { sampleOpts with authRequired := true, token := .strV ("") }
          ("http://example.com") ("get"))) :=
  ⟨(required_token_check { sampleOpts with authRequired := true, token := .numV 5 }
      ("http://example.com") ("get") rfl rfl (by decide) rfl).1 rfl,
   (required_token_check { sampleOpts with authRequired := true, token := .strV ("") }
      ("http://example.com") ("get") rfl rfl (by decide) rfl).2 rfl⟩

/-- Counterexample to C8 as stated: with `isApiV1` set, the error
raised for a method outside the allowed set carries the current (V2)
invalid-parameter tag, not the legacy (V1) tag the flag selects. -/
theorem method_error_ignores_version_flag :
    ({ sampleOpts with isApiV1 := true, method := .strV ("FOO") } : RawOptions).isApiV1 = true
    ∧ validateAndNormalizeOptions { sampleOpts with isApiV1 := true, method := .strV ("FOO") }
        = .error (invalidParamError .invalidParameterV2 (invalidMethodMsg ("FOO")))
    ∧ invalidParamTag true ≠ .invalidParameterV2 := by
  decide

/-- C8 amended: every error the normalizer raises carries the
invalid-parameter tag selected by the caller-supplied `isApiV1` flag,
except the error for a method outside the allowed set, which always
carries the current (V2) tag. -/
theorem normalizer_error_tags (o : RawOptions) (b m : String) :
    (o.baseUrl.isString = false →
      validateAndNormalizeOptions o =
        .error (invalidParamError (invalidParamTag o.isApiV1) baseUrlRequiredMsg))
    ∧ (o.baseUrl = .strV b → o.method.isString = false →
      validateAndNormalizeOptions o =
        .error (invalidParamError (invalidParamTag o.isApiV1) methodRequiredMsg))
    ∧ (o.baseUrl = .strV b → o.method = .strV m →
        ALLOWED_HTTP_METHODS.contains (jsToUpper m) = false →
      validateAndNormalizeOptions o =
        .error (invalidParamError .invalidParameterV2 (invalidMethodMsg m)))
    ∧ (o.baseUrl = .strV b → o.method = .strV m →
        ALLOWED_HTTP_METHODS.contains (jsToUpper m) = true →
        o.authRequired = true → o.token.isString = false →
      validateAndNormalizeOptions o =
        .error (invalidParamError (invalidParamTag o.isApiV1) tokenRequiredMsg)) := by
  refine ⟨fun h1 => ?_, fun hb hm2 => ?_, fun hb hm2 hc => ?_,
    fun hb hm2 hc ha ht => ?_⟩
  · rcases hbv : o.baseUrl <;> rw [hbv] at h1 <;>
      simp [JsVal.isString] at h1 <;>
      simp [validateAndNormalizeOptions, hbv]
  · rcases hmv : o.method <;> rw [hmv] at hm2 <;>
      simp [JsVal.isString] at hm2 <;>
      simp [validateAndNormalizeOptions, hb, hmv]
  · have hc' : jsToUpper m ∉ ALLOWED_HTTP_METHODS := by simpa using hc
    simp [validateAndNormalizeOptions, hb, hm2, hc']
  · have hc' : jsToUpper m ∈ ALLOWED_HTTP_METHODS := by simpa using hc
    simp [validateAndNormalizeOptions, hb, hm2, hc', ha, ht]

theorem normalizer_error_tags_witness :
    (validateAndNormalizeOptions { sampleOpts with isApiV1 := true, baseUrl := .undef }
      = .error (invalidParamError .invalidParameterV1 baseUrlRequiredMsg))
    ∧ (validateAndNormalizeOptions
        { sampleOpts with isApiV1 := true, authRequired := true, token := .nullV }
      = .error (invalidParamError .invalidParameterV1 tokenRequiredMsg)) :=
  ⟨(normalizer_error_tags { sampleOpts with isApiV1 := true, baseUrl := .undef }
      ("") ("")).1 rfl,
   (normalizer_error_tags { sampleOpts with isApiV1 := true, authRequired := true, token := .nullV }
      ("http://example.com") ("get")).2.2.2 rfl rfl (by decide) rfl rfl⟩

/-- Counterexample to C7 as stated: the normalizer strips only one
trailing slash, so on a base URL ending in two slashes the normalized
base URL still ends in a separator, and normalizing the normalizer's
own output yields a different descriptor. -/
theorem trailing_slashes_break_idempotence :
    validateAndNormalizeOptions { sampleOpts with baseUrl := .strV ("http://x//") }
        = .ok (normalizedOf { sampleOpts with baseUrl := .strV ("http://x//") }
            ("http://x//") ("get"))
    ∧ (normalizedOf { sampleOpts with baseUrl := .strV ("http://x//") }
        ("http://x//") ("get")).baseUrl = .strV ("http://x/")
    ∧ jsLastIsSlash ("http://x/") = true
    ∧ validateAndNormalizeOptions (normalizedOf { sampleOpts with baseUrl := .strV ("http://x//") }
        ("http://x//") ("get"))
        ≠ .ok (normalizedOf { sampleOpts with baseUrl := .strV ("http://x//") }
            ("http://x//") ("get")) := by
  decide

/-- C7 amended: the normalizer strips exactly one trailing slash per
application, so it is idempotent precisely on descriptors whose
normalized base URL does not end in a separator: whenever
normalization accepts a descriptor and its output's base URL does not
end in a slash, normalizing the output returns it unchanged. -/
theorem normalize_idempotent_unless_double_slash (o o' : RawOptions)
    (h : validateAndNormalizeOptions o = .ok o')
    (hs : baseUrlEndsInSlash o' = false) :
    validateAndNormalizeOptions o' = .ok o' := by
  cases hbv : o.baseUrl <;> simp [validateAndNormalizeOptions, hbv] at h
  case strV b0 =>
  cases hmv : o.method <;> simp [hmv] at h
  case strV m0 =>
  by_cases hc : jsToUpper m0 ∈ ALLOWED_HTTP_METHODS
  · simp [hc] at h
    by_cases htk : o.authRequired = true ∧ o.token.isString = false
    · simp [htk] at h
    · simp [htk] at h
      subst h
      have hcContains : ALLOWED_HTTP_METHODS.contains (jsToUpper m0) = true := by
        simpa using hc
      have hfix : jsToUpper (jsToUpper m0) = jsToUpper m0 :=
        jsToUpper_fixed_of_allowed hcContains
      have hs' : jsLastIsSlash (if jsLastIsSlash b0 then jsDropLast b0 else b0) = false := by
        simpa [baseUrlEndsInSlash, normalizedOf] using hs
      simp [validateAndNormalizeOptions, normalizedOf, hfix, hc, htk, hs']
  · simp [hc] at h

theorem normalize_idempotent_unless_double_slash_witness :
    validateAndNormalizeOptions (normalizedOf sampleOpts ("http://example.com") ("get"))
      = .ok (normalizedOf sampleOpts ("http://example.com") ("get")) :=
  normalize_idempotent_unless_double_slash sampleOpts
    (normalizedOf sampleOpts ("http://example.com") ("get")) (by decide) (by decide)

/-! ## Attempt-level helper lemmas -/

/-- On a non-success status the try block always falls through with the
status code, the (optionally parsed) body, and the optional caught
parse error. -/
theorem tryBlock_res_of_not_success (o : RawOptions) (st : Option Nat)
    (b : RawRespBody) (h : isSuccessStatus st = false) :
    tryBlock o (.res st b) = .fell st (some (respBodyAfterParse o b)) (tryErrOf o b) := by
  rcases b with _ | ⟨s, p⟩
  · simp [tryBlock, respBodyAfterParse, tryErrOf, h]
  · rcases p with v | em
    · simp [tryBlock, respBodyAfterParse, tryErrOf, h]
    · by_cases hj : o.json = true <;> simp [tryBlock, respBodyAfterParse, tryErrOf, h, hj]

/-- Reading back the slot just bumped: an absent or non-number slot
becomes `1`, a numeric slot is incremented. -/
theorem bumpRateLimit_get (l : List (Option Nat)) (k : Nat) :
    (bumpRateLimit l k).get? k = some (some (((l.get? k).join.getD 0) + 1)) := by
  induction l generalizing k with
  | nil =>
    induction k with
    | zero => rfl
    | succ k ih => simpa [bumpRateLimit] using ih
  | cons x xs ih =>
    cases k with
    | zero => cases x <;> rfl
    | succ k => simpa [bumpRateLimit] using ih k

/-- One unfolding of the retry loop when the attempt is classified
terminal: the loop stops at once with that error. -/
theorem retryLoop_terminal_step (o : RawOptions) (outcomes : Nat → Transport)
    (fuel i : Nat) (stats : CallStats) (e : ApifyClientError)
    (h : classifyAttempt o (outcomes i) i = .terminalError e) :
    retryLoop o outcomes (fuel + 1) i stats
      = (.failure e, statsAfterAttempt o (outcomes i) i stats) := by
  rw [retryLoop, h]

/-- One unfolding of the retry loop when the attempt is classified
retryable: stop with the wrapped error if the ceiling is reached,
otherwise continue at the next ordinal. -/
theorem retryLoop_retryable_step (o : RawOptions) (outcomes : Nat → Transport)
    (fuel i : Nat) (stats : CallStats) (e : ApifyClientError)
    (h : classifyAttempt o (outcomes i) i = .retryableError e) :
    retryLoop o outcomes (fuel + 1) i stats
      = (if fuel = 0 then (.failure e, statsAfterAttempt o (outcomes i) i stats)
         else retryLoop o outcomes fuel (i + 1) (statsAfterAttempt o (outcomes i) i stats)) := by
  rw [retryLoop, h]

/-- A retryable verdict pins down the whole classification: the thrown
error is the request-failed error for the current ordinal wrapping the
attempt's status and caught exception. -/
theorem classify_of_retryable_kind (o : RawOptions) (t : Transport) (i : Nat)
    (h : attemptKind o t = .retryable) :
    classifyAttempt o t i =
      .retryableError (mkRetryError o (fellStatus o t) (fellError o t) i) := by
  rcases ht : tryBlock o t with p | ⟨st, rb, err⟩
  · exfalso
    simp [attemptKind, classifyAttempt, kindOf, ht] at h
  · by_cases hterm : terminalStatus o st = true
    · exfalso
      simp [attemptKind, classifyAttempt, kindOf, ht, hterm] at h
    · simp [classifyAttempt, fellStatus, fellError, ht, hterm]

/-- When every attempt in the window is retryable, the loop runs all
`f + 1` attempts and fails with the error of the last one. -/
theorem retryLoop_exhausts_all_retryable (o : RawOptions) (outcomes : Nat → Transport) :
    ∀ (f i : Nat) (stats : CallStats),
      (∀ j, i ≤ j → j < i + (f + 1) → attemptKind o (outcomes j) = .retryable) →
      (retryLoop o outcomes (f + 1) i stats).1 =
          .failure (mkRetryError o (fellStatus o (outcomes (i + f)))
            (fellError o (outcomes (i + f))) (i + f))
        ∧ (retryLoop o outcomes (f + 1) i stats).2.requests = stats.requests + (f + 1) := by
  intro f
  induction f with
  | zero =>
    intro i stats hr
    have h := hr i (Nat.le_refl i) (by omega)
    have hc := classify_of_retryable_kind o (outcomes i) i h
    rw [retryLoop_retryable_step o outcomes 0 i stats _ hc]
    constructor
    · simp
    · simp [statsAfterAttempt_requests]
  | succ f ih =>
    intro i stats hr
    have h := hr i (Nat.le_refl i) (by omega)
    have hc := classify_of_retryable_kind o (outcomes i) i h
    have hr' : ∀ j, i + 1 ≤ j → j < (i + 1) + (f + 1) →
        attemptKind o (outcomes j) = .retryable :=
      fun j hj1 hj2 => hr j (by omega) (by omega)
    obtain ⟨ih1, ih2⟩ := ih (i + 1) (statsAfterAttempt o (outcomes i) i stats) hr'
    have hidx : (i + 1) + f = i + (f + 1) := by omega
    rw [hidx] at ih1
    have hstep := retryLoop_retryable_step o outcomes (f + 1) i stats _ hc
    rw [if_neg (Nat.succ_ne_zero f)] at hstep
    constructor
    · rw [hstep, ih1]
    · rw [hstep, ih2, statsAfterAttempt_requests]
      omega

/-- C1: an attempt whose status code lies in [300, 500) and is not in
the descriptor's retryable-status set makes the whole call fail
immediately with the structured error built from the (optionally
parsed) response body carrying the status code, url and method; no
further attempts are made — exactly one request is recorded from this
point regardless of the remaining retry budget. -/
theorem terminal_status_fails_immediately (o : RawOptions)
    (outcomes : Nat → Transport) (f i : Nat) (stats : CallStats)
    (n : Nat) (b : RawRespBody)
    (h1 : 300 ≤ n) (h2 : n < 500) (h3 : (retrySetOf o).contains n = false)
    (ho : outcomes i = .res (some n) b) :
    retryLoop o outcomes (f + 1) i stats =
      (.failure (newApifyClientErrorFromResponse (respBodyAfterParse o b) o.isApiV1
          { statusCode := some n, url := o.url, method := o.methodStr }),
        statsAfterAttempt o (.res (some n) b) i stats)
    ∧ (statsAfterAttempt o (.res (some n) b) i stats).requests = stats.requests + 1 := by
  have hns : isSuccessStatus (some n) = false := by
    simp [isSuccessStatus]; omega
  have h3' : n ∉ retrySetOf o := by simpa using h3
  have hterm : terminalStatus o (some n) = true := by
    simp [terminalStatus, h3', decide_eq_true (by omega : 300 ≤ n), decide_eq_true h2]
  have hclass : classifyAttempt o (outcomes i) i =
      .terminalError (newApifyClientErrorFromResponse (respBodyAfterParse o b) o.isApiV1
        { statusCode := some n, url := o.url, method := o.methodStr }) := by
    rw [ho]
    unfold classifyAttempt
    rw [tryBlock_res_of_not_success o _ b hns]
    simp [hterm]
  refine ⟨?_, statsAfterAttempt_requests o _ i stats⟩
  have hstep := retryLoop_terminal_step o outcomes f i stats _ hclass
  rw [ho] at hstep
  exact hstep

theorem terminal_status_fails_immediately_witness :
    retryLoop sampleOpts (fun _ => .res (some 404) (.text ("nf") (.err ("e")))) 8 1 freshStats =
      (.failure (newApifyClientErrorFromResponse
          (respBodyAfterParse sampleOpts (.text ("nf") (.err ("e")))) sampleOpts.isApiV1
          { statusCode := some 404, url := sampleOpts.url, method := sampleOpts.methodStr }),
        statsAfterAttempt sampleOpts (.res (some 404) (.text ("nf") (.err ("e")))) 1 freshStats)
    ∧ (statsAfterAttempt sampleOpts (.res (some 404) (.text ("nf") (.err ("e")))) 1 freshStats).requests
        = freshStats.requests + 1 :=
  terminal_status_fails_immediately sampleOpts
    (fun _ => .res (some 404) (.text ("nf") (.err ("e")))) 7 1 freshStats 404
    (.text ("nf") (.err ("e"))) (by decide) (by decide) (by decide) rfl

/-- C4: every attempt that observes status 429 bumps the rate-limit
counter stored for that attempt's 1-based ordinal (the source keeps it
at array index `iteration - 1`): an absent counter is created with
value 1, a present one is incremented — for every descriptor, hence
regardless of whether 429 is in the configured retryable-status set. -/
theorem rate_limit_always_counted (o : RawOptions) (b : RawRespBody)
    (i : Nat) (s : CallStats) :
    rateLimitAtOrdinal (statsAfterAttempt o (.res (some 429) b) i s) i
      = some ((rateLimitAtOrdinal s i).getD 0 + 1) := by
  have h : isSuccessStatus (some 429) = false := by decide
  have hb := bumpRateLimit_get s.rateLimitErrors (i - 1)
  unfold statsAfterAttempt
  rw [tryBlock_res_of_not_success o _ b h]
  dsimp only
  have hcond : some 429 = some RATE_LIMIT_EXCEEDED_STATUS_CODE := rfl
  rw [if_pos hcond]
  unfold rateLimitAtOrdinal
  dsimp only
  rw [hb]
  rfl

/-- C10: an attempt where the transport resolves with a response whose
status code is absent (or zero, hence falsy) is handled exactly like a
sub-300 status: it resolves as a success with the (possibly
JSON-parsed) body whenever no JSON parse failure occurs, and its
classifier verdict coincides with the verdict for any status below
300 for every body. -/
theorem absent_status_treated_as_success (o : RawOptions) (st : Option Nat)
    (b : RawRespBody) (i n : Nat)
    (hst : st = none ∨ st = some 0) (hn : n < 300) :
    (jsonParseFails o b = false →
      classifyAttempt o (.res st b) i =
        .success (mkPayload o st (respBodyAfterParse o b)))
    ∧ attemptKind o (.res st b) = attemptKind o (.res (some n) b) := by
  have hsucc : isSuccessStatus st = true := by
    rcases hst with h | h <;> subst h <;> decide
  have hsucc2 : isSuccessStatus (some n) = true := by
    simp [isSuccessStatus]; omega
  have hterm : terminalStatus o st = false := by
    rcases hst with h | h <;> subst h <;> simp [terminalStatus]
  have hterm2 : terminalStatus o (some n) = false := by
    simp [terminalStatus, decide_eq_false (by omega : ¬ (300 ≤ n))]
  constructor
  · intro hpf
    rcases b with _ | ⟨s, p⟩
    · simp [classifyAttempt, tryBlock, hsucc, respBodyAfterParse]
    · rcases p with v | em
      · simp [classifyAttempt, tryBlock, hsucc, respBodyAfterParse]
      · have hj : o.json = false := by simpa [jsonParseFails] using hpf
        simp [classifyAttempt, tryBlock, hsucc, hj, respBodyAfterParse]
  · rcases b with _ | ⟨s, p⟩
    · simp [attemptKind, classifyAttempt, kindOf, tryBlock, hsucc, hsucc2]
    · rcases p with v | em
      · simp [attemptKind, classifyAttempt, kindOf, tryBlock, hsucc, hsucc2]
      · by_cases hj : o.json = true <;>
          simp [attemptKind, classifyAttempt, kindOf, tryBlock, hsucc, hsucc2, hj, hterm, hterm2]

theorem absent_status_treated_as_success_witness :
    classifyAttempt sampleOpts (.res none (.text ("x") (.ok (.other ("x"))))) 1 =
      .success (mkPayload sampleOpts none
        (respBodyAfterParse sampleOpts (.text ("x") (.ok (.other ("x"))))))
    ∧ attemptKind sampleOpts (.res none (.text ("x") (.ok (.other ("x")))))
        = attemptKind sampleOpts (.res (some 200) (.text ("x") (.ok (.other ("x"))))) :=
  ⟨(absent_status_treated_as_success sampleOpts none (.text ("x") (.ok (.other ("x"))))
      1 200 (Or.inl rfl) (by decide)).1 rfl,
   (absent_status_treated_as_success sampleOpts none (.text ("x") (.ok (.other ("x"))))
      1 200 (Or.inl rfl) (by decide)).2⟩

/-- Counterexample to C2 as stated: with content negotiation enabled, a
404 response (a status in [300, 500) outside the default retryable set)
whose non-empty body fails to parse as JSON is classified terminal —
the call fails at once with the error built from the raw body — and
not retryable. -/
theorem parse_failure_on_terminal_status_not_retryable :
    sampleOpts.json = true
    ∧ classifyAttempt sampleOpts (.res (some 404) (.text ("oops") (.err ("bad")))) 1
      = .terminalError (newApifyClientErrorFromResponse (.raw ("oops")) false
          { statusCode := some 404, url := ("/acts"), method := ("get") })
    ∧ attemptKind sampleOpts (.res (some 404) (.text ("oops") (.err ("bad")))) ≠ .retryable := by
  decide

/-- C2 amended: with content negotiation enabled, an attempt whose
non-empty body fails to parse as JSON is never returned to the caller
as a success; whenever its status is not in the terminal band
[300, 500) minus the retryable set — in particular for every status in
the 200 range — it is classified retryable, entering the retry path
with a request-failed error wrapping the parse failure; a status in
the terminal band yields the immediate terminal error instead. -/
theorem json_parse_failure_never_success (o : RawOptions) (st : Option Nat)
    (s em : String) (i : Nat) (hj : o.json = true) :
    (∀ p, classifyAttempt o (.res st (.text s (.err em))) i ≠ .success p)
    ∧ (terminalStatus o st = false →
        classifyAttempt o (.res st (.text s (.err em))) i =
          .retryableError (mkRetryError o st (some (.parse em)) i))
    ∧ (mkRetryError o st (some (.parse em)) i).type = requestFailedTag o.isApiV1
    ∧ (terminalStatus o st = true →
        classifyAttempt o (.res st (.text s (.err em))) i =
          .terminalError (newApifyClientErrorFromResponse (.raw s) o.isApiV1
            { statusCode := st, url := o.url, method := o.methodStr })) := by
  have ht : tryBlock o (.res st (.text s (.err em)))
      = .fell st (some (.raw s)) (some (.parse em)) := by
    simp [tryBlock, hj]
  refine ⟨?_, fun hterm => ?_, rfl, fun hterm => ?_⟩
  · intro p hcon
    unfold classifyAttempt at hcon
    rw [ht] at hcon
    by_cases h2 : terminalStatus o st = true <;> simp [h2] at hcon
  · unfold classifyAttempt
    rw [ht]
    simp [hterm]
  · unfold classifyAttempt
    rw [ht]
    simp [hterm]

theorem json_parse_failure_never_success_witness :
    classifyAttempt sampleOpts (.res (some 200) (.text ("x") (.err ("uhoh")))) 1 =
      .retryableError (mkRetryError sampleOpts (some 200) (some (.parse ("uhoh"))) 1) :=
  (json_parse_failure_never_success sampleOpts (some 200) ("x") ("uhoh") 1 rfl).2.1
    (by decide)

/-- C3: when a call exhausts its retry budget after `N` retryable
attempts, the final request-failed error's message reads "API request
failed on the first try" for `N = 1` and "API request failed on retry
number N-1" for `N ≥ 2`, its tag is the flag-selected request-failed
tag, and it wraps the last attempt's underlying failure cause; exactly
`N` requests are recorded. -/
theorem exhaustion_error_message (o : RawOptions) (outcomes : Nat → Transport)
    (stats : CallStats) (N : Nat) (hN : 1 ≤ N)
    (hr : ∀ j, 1 ≤ j → j ≤ N → attemptKind o (outcomes j) = .retryable) :
    (retryLoop o outcomes N 1 stats).1 =
        .failure (mkRetryError o (fellStatus o (outcomes N)) (fellError o (outcomes N)) N)
    ∧ (mkRetryError o (fellStatus o (outcomes N)) (fellError o (outcomes N)) N).message
        = (if N = 1 then ("API request failed on the first try")
           else ("API request failed on retry number ") ++ toString (N - 1))
    ∧ (mkRetryError o (fellStatus o (outcomes N)) (fellError o (outcomes N)) N).type
        = requestFailedTag o.isApiV1
    ∧ (mkRetryError o (fellStatus o (outcomes N)) (fellError o (outcomes N)) N).cause
        = fellError o (outcomes N)
    ∧ (retryLoop o outcomes N 1 stats).2.requests = stats.requests + N := by
  obtain ⟨f, rfl⟩ : ∃ f, N = f + 1 := ⟨N - 1, by omega⟩
  obtain ⟨hm, hreq⟩ := retryLoop_exhausts_all_retryable o outcomes f 1 stats
    (fun j hj1 hj2 => hr j hj1 (by omega))
  have hidx : 1 + f = f + 1 := by omega
  rw [hidx] at hm
  exact ⟨hm, rfl, rfl, rfl, hreq⟩

theorem exhaustion_error_message_witness :
    ((retryLoop sampleOpts const429 3 1 freshStats).1 =
        .failure (mkRetryError sampleOpts (fellStatus sampleOpts (const429 3))
          (fellError sampleOpts (const429 3)) 3)
      ∧ (mkRetryError sampleOpts (fellStatus sampleOpts (const429 3))
          (fellError sampleOpts (const429 3)) 3).message
          = (if 3 = 1 then ("API request failed on the first try")
             else ("API request failed on retry number ") ++ toString (3 - 1))
      ∧ (mkRetryError sampleOpts (fellStatus sampleOpts (const429 3))
          (fellError sampleOpts (const429 3)) 3).type = requestFailedTag sampleOpts.isApiV1
      ∧ (mkRetryError sampleOpts (fellStatus sampleOpts (const429 3))
          (fellError sampleOpts (const429 3)) 3).cause = fellError sampleOpts (const429 3)
      ∧ (retryLoop sampleOpts const429 3 1 freshStats).2.requests = freshStats.requests + 3)
    ∧ (("API request failed on retry number ") ++ toString (3 - 1)
        = ("API request failed on retry number 2")) :=
  ⟨exhaustion_error_message sampleOpts const429 freshStats 3 (by decide)
      (fun j hj1 hj2 => by
        show attemptKind sampleOpts (.res (some 429) .empty) = .retryable
        decide),
   by decide⟩

end ApifyHttp
